import Mathlib

/-!
Verification development for the xbox_machine-controller repository
(src/xbox_reader.cpp and src/XboxControllerInput.cpp).

The C++ sources are shallowly embedded: `double` values produced by the
normalizers are modelled as exact rationals (the only divisions performed
are by the constants 255, 32767 and 32768, and every value the theorems
evaluate concretely is exactly representable), machine integers as `ℕ`/`ℤ`,
and the stateful pipe thread as an explicit step function on a small
configuration type.
-/

namespace XboxMC

/-- Normalize thumb values [-32768, 32767] -> [-1.0, 1.0].
Embeds `normThumb` (xbox_reader.cpp lines 65-68, XboxControllerInput.cpp
lines 75-78): `(v >= 0) ? v / 32767.0 : v / 32768.0`. The exact rational
quotient is built with `mkRat` (equal to `v / 32767` resp. `v / 32768`
by `Rat.mkRat_eq_div`) so that it evaluates in the kernel. -/
def normThumb (v : ℤ) : ℚ :=
  if 0 ≤ v then mkRat v 32767 else mkRat v 32768

/-- Normalize trigger [0, 255] -> [0.0, 1.0].
Embeds `normTrig` (xbox_reader.cpp lines 71-74, XboxControllerInput.cpp
lines 81-84): `v / 255.0`, as the exact rational `mkRat v 255`. -/
def normTrig (v : ℕ) : ℚ := mkRat v 255

/-- The fourteen button booleans of `IControllerInput::State::buttons`
(xbox_reader.cpp lines 81-87). -/
structure Buttons where
  A : Bool
  B : Bool
  X : Bool
  Y : Bool
  LB : Bool
  RB : Bool
  Back : Bool
  Start : Bool
  LS : Bool
  RS : Bool
  DpadUp : Bool
  DpadDown : Bool
  DpadLeft : Bool
  DpadRight : Bool
deriving DecidableEq, Repr

/-- `IControllerInput::State::triggers` (xbox_reader.cpp lines 88-90). -/
structure Triggers where
  LT : ℚ
  RT : ℚ
deriving DecidableEq, Repr

/-- `IControllerInput::State::sticks` (xbox_reader.cpp lines 91-94). -/
structure Sticks where
  LX : ℚ
  LY : ℚ
  RX : ℚ
  RY : ℚ
deriving DecidableEq, Repr

/-- `IControllerInput::State` (xbox_reader.cpp lines 79-95). -/
structure State where
  connected : Bool
  buttons : Buttons
  triggers : Triggers
  sticks : Sticks
deriving DecidableEq, Repr

/-- All buttons released, as produced by the value initialization
`buttons{}` of the C++ struct. -/
def Buttons.zero : Buttons :=
  ⟨false, false, false, false, false, false, false, false,
   false, false, false, false, false, false⟩

/-- The value-initialized `IControllerInput::State state{}` built fresh by
`main` on every tick (xbox_reader.cpp line 414): disconnected, all
buttons released, all axes zero. -/
def State.init : State :=
  { connected := false
    buttons := Buttons.zero
    triggers := ⟨0, 0⟩
    sticks := ⟨0, 0, 0, 0⟩ }

/-- The raw `XINPUT_GAMEPAD` report: a 16-bit button mask, two trigger
bytes and four signed 16-bit stick axes. -/
structure Gamepad where
  wButtons : ℕ
  bLeftTrigger : ℕ
  bRightTrigger : ℕ
  sThumbLX : ℤ
  sThumbLY : ℤ
  sThumbRX : ℤ
  sThumbRY : ℤ
deriving DecidableEq, Repr

/-- The all-zero `XINPUT_STATE` produced by `ZeroMemory`
(XboxControllerInput.cpp line 224) or by `XINPUT_STATE state{}`. -/
def Gamepad.zero : Gamepad := ⟨0, 0, 0, 0, 0, 0, 0⟩

/-- Bit test `(wButtons & mask) != 0` as used by `XInputController::poll`
and by the `bit` lambda of `FormatState`. -/
def btn (w m : ℕ) : Bool := w &&& m ≠ 0

/-- `XInputController::poll` (xbox_reader.cpp lines 115-147). The XInput
call is modelled by its result: `some pad` when `XInputGetState` returned
`ERROR_SUCCESS`, `none` otherwise. The function receives the caller's
`State` by reference; it always writes `state.connected`, fills the
remaining fields only in the connected branch, and returns
`state.connected`. Mask constants are the `XINPUT_GAMEPAD_*` values of
`Xinput.h`. -/
def XInputController.poll (state : State) (res : Option Gamepad) : State × Bool :=
  match res with
  | none =>
      let s := { state with connected := false }
      (s, s.connected)
  | some pad =>
      let s : State :=
        { connected := true
          buttons :=
            { A := btn pad.wButtons 0x1000
              B := btn pad.wButtons 0x2000
              X := btn pad.wButtons 0x4000
              Y := btn pad.wButtons 0x8000
              LB := btn pad.wButtons 0x0100
              RB := btn pad.wButtons 0x0200
              Back := btn pad.wButtons 0x0020
              Start := btn pad.wButtons 0x0010
              LS := btn pad.wButtons 0x0040
              RS := btn pad.wButtons 0x0080
              DpadUp := btn pad.wButtons 0x0001
              DpadDown := btn pad.wButtons 0x0002
              DpadLeft := btn pad.wButtons 0x0004
              DpadRight := btn pad.wButtons 0x0008 }
          triggers :=
            { LT := normTrig pad.bLeftTrigger
              RT := normTrig pad.bRightTrigger }
          sticks :=
            { LX := normThumb pad.sThumbLX
              LY := normThumb pad.sThumbLY
              RX := normThumb pad.sThumbRX
              RY := normThumb pad.sThumbRY } }
      (s, s.connected)

/-- One acquisition tick of `main` in xbox_reader.cpp (lines 413-415):
a fresh value-initialized `State{}` is passed to `poll`, and the
resulting `State` is the one rendered and published this tick. -/
def xrTick (res : Option Gamepad) : State :=
  (XInputController.poll State.init res).1

/-- The effective `XINPUT_STATE` used by `FormatState` on one tick of
`main` in XboxControllerInput.cpp (lines 218-225): on poll failure the
struct is zeroed with `ZeroMemory` so formatting is stable. -/
def xciTickPad (res : Option Gamepad) : Gamepad :=
  match res with
  | none => Gamepad.zero
  | some pad => pad

/-- The `connected` flag of one tick of `main` in XboxControllerInput.cpp
(line 220): `res == ERROR_SUCCESS`. -/
def xciTickConnected (res : Option Gamepad) : Bool := res.isSome

/-- The Latest-Value Cell: `g_jsonMutex`, `g_jsonCv` and `g_latestJson`
(xbox_reader.cpp lines 158-161, XboxControllerInput.cpp lines 47-50).
`value` is the protected `g_latestJson`; `seq` counts the
`g_jsonCv.notify_all()` wake events, one per publish — the publish block
runs unconditionally on every loop iteration and performs no comparison
with the previous value. -/
structure Cell (α : Type) where
  value : α
  seq : ℕ
deriving DecidableEq, Repr

/-- The publish block of the acquisition loop (xbox_reader.cpp lines
430-434, XboxControllerInput.cpp lines 235-239): take `g_jsonMutex`,
overwrite `g_latestJson` with the new snapshot, release, then
`g_jsonCv.notify_all()`. The overwrite and the notification are
unconditional: the new value is never compared with the old one. -/
def Cell.publish {α : Type} (c : Cell α) (v : α) : Cell α :=
  { value := v, seq := c.seq + 1 }

/-- A read of the latest snapshot under the mutex, as done by
`std::string snapshot = g_latestJson;` (xbox_reader.cpp line 364):
returns the current value and its sequence number without blocking. -/
def Cell.readLatest {α : Type} (c : Cell α) : α × ℕ := (c.value, c.seq)

/-- One pass of the streaming loop of `PipeThread` after
`g_jsonCv.wait(lk)` returns (xbox_reader.cpp lines 360-378,
XboxControllerInput.cpp lines 177-194). `running` is `g_running` at the
wake, `c` the cell contents at the wake, and `lastSeen` the cell sequence
number the waiter held when it entered the wait. The code checks only
`g_running` after the wake — it never compares `lastSeen` with the
current sequence number — and then unconditionally copies `g_latestJson`
and writes it to the pipe. The result is the string written this pass,
`none` when the waiter stops instead. -/
def pipeWaitIter (running : Bool) (lastSeen : ℕ) (c : Cell String) : Option String :=
  if running then some c.value else none

/-- Where the pipe thread's control currently is (`PipeThread`,
xbox_reader.cpp lines 331-385, XboxControllerInput.cpp lines 149-201):
`idle` = at the `for (; g_running.load(); )` condition, about to
re-create the named-pipe instance; `listening` = blocked inside
`ConnectNamedPipe`; `connected` = inside the streaming loop, blocked in
`g_jsonCv.wait`; `finished` = the thread has returned. -/
inductive PipePhase
  | idle
  | listening
  | connected
  | finished
deriving DecidableEq, Repr

/-- Configuration of the pipe thread together with the shared state it
observes: its phase, the `g_running` flag, and the Latest-Value Cell. -/
structure PipeCfg where
  phase : PipePhase
  running : Bool
  cell : Cell String
deriving DecidableEq, Repr

/-- Environment events the pipe thread reacts to. `loopTurn ok` = the
outer `for` condition is evaluated and, if the loop is entered,
`CreateNamedPipeA` returns with success `ok`; `acceptClient` = a
consumer completes `ConnectNamedPipe`; `acceptFail` = `ConnectNamedPipe`
returns an error; `publish v ok` = the acquisition loop publishes `v`
(cell overwrite plus `notify_all`), and if a connected waiter thereby
wakes and writes, `ok` is the `WriteFile` outcome; `spurious ok` = a
spurious condition-variable wakeup, with `ok` again the write outcome if
a write happens; `shutdown` = the coordinator stores `false` into
`g_running` and calls `g_jsonCv.notify_all()`. -/
inductive PipeEvent
  | loopTurn (createOk : Bool)
  | acceptClient
  | acceptFail
  | publish (v : String) (writeOk : Bool)
  | spurious (writeOk : Bool)
  | shutdown
deriving DecidableEq, Repr

/-- Step function of the pipe thread, read off `PipeThread`
(xbox_reader.cpp lines 331-385; XboxControllerInput.cpp lines 149-201 is
structurally identical). Returns the successor configuration and the
snapshot delivered to the consumer by this step, if any. Notable
source-faithful behaviors: a failed `CreateNamedPipeA` sleeps 250 ms and
retries (`idle` stays `idle`); a thread blocked in `ConnectNamedPipe` is
not woken by `shutdown` — no code closes the listening handle, so the
phase stays `listening`; a client accepted while `g_running` is already
false finds the inner `while (g_running.load())` guard false and the
session is closed with nothing written; a write failure breaks out of
the streaming loop, closes the handle and returns to the outer `for`
(`idle`); `shutdown` while `connected` wakes the waiter, which sees
`!g_running`, breaks, closes the handle and lets the outer `for` exit. -/
def pipeStep (s : PipeCfg) (e : PipeEvent) : PipeCfg × Option String :=
  match e with
  | .loopTurn createOk =>
      match s.phase with
      | .idle =>
          if s.running then
            if createOk then ({ s with phase := .listening }, none)
            else (s, none)
          else ({ s with phase := .finished }, none)
      | _ => (s, none)
  | .acceptClient =>
      match s.phase with
      | .listening =>
          if s.running then ({ s with phase := .connected }, none)
          else ({ s with phase := .idle }, none)
      | _ => (s, none)
  | .acceptFail =>
      match s.phase with
      | .listening => ({ s with phase := .idle }, none)
      | _ => (s, none)
  | .publish v writeOk =>
      let s' := { s with cell := s.cell.publish v }
      match s.phase with
      | .connected =>
          if s.running then
            if writeOk then (s', some v)
            else ({ s' with phase := .idle }, none)
          else ({ s' with phase := .idle }, none)
      | _ => (s', none)
  | .spurious writeOk =>
      match s.phase with
      | .connected =>
          if s.running then
            if writeOk then (s, some s.cell.value)
            else ({ s with phase := .idle }, none)
          else ({ s with phase := .idle }, none)
      | _ => (s, none)
  | .shutdown =>
      match s.phase with
      | .connected => ({ s with running := false, phase := .finished }, none)
      | _ => ({ s with running := false }, none)

/-- Milliseconds from the shutdown request to process exit for
xbox_reader.cpp. `ConsoleCtrlHandler` (lines 243-246) detaches a timer
thread that sleeps 500 ms and then calls `ExitProcess(0)` regardless of
any other thread's state; the graceful path of `main` (lines 439-486)
may finish earlier (`graceful = some t`) or never (`none`, e.g. a
cleanup step hangs). The process exits at whichever comes first. -/
def xrExitTimeMs (graceful : Option ℕ) : ℕ :=
  match graceful with
  | some t => min t 500
  | none => 500

/-- Milliseconds from the shutdown request to process exit for
XboxControllerInput.cpp, as a function of when the pipe thread exits
(`none` = never, e.g. blocked forever in `ConnectNamedPipe` with no
client, or in a hung `WriteFile`). `main` (lines 244-246) calls
`pipeThr.join()` with no timeout and there is no forced-exit timer
anywhere in this translation unit, so the process exits exactly when the
pipe thread does. -/
def xciExitTimeMs (pipeThreadExit : Option ℕ) : Option ℕ :=
  pipeThreadExit

/-- A bool streamed to a C++ ostream without `boolalpha`, as in
`js << state.buttons.A` (BuildJson) and the `bit` lambda of
`FormatState`: prints `1` or `0`. -/
def b01 (b : Bool) : String := if b then "1" else "0"

/-- Left-pad a digit string with zeros to six characters. -/
def pad6 (s : String) : String :=
  String.mk (List.replicate (6 - s.length) '0') ++ s

/-- Nearest integer to `num / den` (for `den > 0`), ties to even — the
rounding IEEE printf-style formatting applies to the exact value of a
`double`. Implemented with integer floor division so it evaluates in the
kernel. -/
def roundHalfEven (num den : ℤ) : ℤ :=
  let f := Int.fdiv num den
  let r := num - den * f
  if 2 * r < den then f
  else if den < 2 * r then f + 1
  else if f % 2 = 0 then f else f + 1

/-- A `double` streamed to an ostream with `std::ios::fixed` and
`setprecision(6)`: sign, integer part, point, six fractional digits,
rounding ties to even. Exact for the values this program streams (they
are exactly representable or derived from exact rationals; none of them
rounds to a negative zero, so the sign of the rounded value is the sign
of the printed string). -/
def fixed6 (q : ℚ) : String :=
  let n : ℤ := roundHalfEven (q.num * 1000000) (q.den : ℤ)
  let sign := if n < 0 then "-" else ""
  let m := n.natAbs
  sign ++ toString (m / 1000000) ++ "." ++ pad6 (toString (m % 1000000))

/-- `BuildJson` (xbox_reader.cpp lines 296-328): the one-line JSON
snapshot, fixed six-decimal floats, buttons as `0`/`1`. -/
def BuildJson (s : State) : String :=
  "\x7b" ++
  "\"connected\":" ++ (if s.connected then "true" else "false") ++ "," ++
  "\"buttons\":\x7b" ++
  "\"A\":" ++ b01 s.buttons.A ++ "," ++
  "\"B\":" ++ b01 s.buttons.B ++ "," ++
  "\"X\":" ++ b01 s.buttons.X ++ "," ++
  "\"Y\":" ++ b01 s.buttons.Y ++ "," ++
  "\"LB\":" ++ b01 s.buttons.LB ++ "," ++
  "\"RB\":" ++ b01 s.buttons.RB ++ "," ++
  "\"Back\":" ++ b01 s.buttons.Back ++ "," ++
  "\"Start\":" ++ b01 s.buttons.Start ++ "," ++
  "\"LS\":" ++ b01 s.buttons.LS ++ "," ++
  "\"RS\":" ++ b01 s.buttons.RS ++ "," ++
  "\"DpadUp\":" ++ b01 s.buttons.DpadUp ++ "," ++
  "\"DpadDown\":" ++ b01 s.buttons.DpadDown ++ "," ++
  "\"DpadLeft\":" ++ b01 s.buttons.DpadLeft ++ "," ++
  "\"DpadRight\":" ++ b01 s.buttons.DpadRight ++
  "\x7d," ++
  "\"triggers\":\x7b\"LT\":" ++ fixed6 s.triggers.LT ++
  ",\"RT\":" ++ fixed6 s.triggers.RT ++ "\x7d," ++
  "\"sticks\":\x7b\"LX\":" ++ fixed6 s.sticks.LX ++
  ",\"LY\":" ++ fixed6 s.sticks.LY ++
  ",\"RX\":" ++ fixed6 s.sticks.RX ++
  ",\"RY\":" ++ fixed6 s.sticks.RY ++ "\x7d" ++
  "\x7d"

/-- The JSON branch of `FormatState` (XboxControllerInput.cpp lines
119-145): a pretty-printed snapshot with embedded newlines, ending in a
newline of its own, built from the raw gamepad via the `bit` lambda and
the normalizers. -/
def xciJson (g : Gamepad) (connected : Bool) : String :=
  "\x7b\n" ++
  "  \"connected\": " ++ (if connected then "true" else "false") ++ ",\n" ++
  "  \"buttons\": \x7b" ++
  "\"A\":" ++ b01 (btn g.wButtons 0x1000) ++ ", " ++
  "\"B\":" ++ b01 (btn g.wButtons 0x2000) ++ ", " ++
  "\"X\":" ++ b01 (btn g.wButtons 0x4000) ++ ", " ++
  "\"Y\":" ++ b01 (btn g.wButtons 0x8000) ++ ", " ++
  "\"LB\":" ++ b01 (btn g.wButtons 0x0100) ++ ", " ++
  "\"RB\":" ++ b01 (btn g.wButtons 0x0200) ++ ", " ++
  "\"Back\":" ++ b01 (btn g.wButtons 0x0020) ++ ", " ++
  "\"Start\":" ++ b01 (btn g.wButtons 0x0010) ++ ", " ++
  "\"LS\":" ++ b01 (btn g.wButtons 0x0040) ++ ", " ++
  "\"RS\":" ++ b01 (btn g.wButtons 0x0080) ++ ", " ++
  "\"DpadUp\":" ++ b01 (btn g.wButtons 0x0001) ++ ", " ++
  "\"DpadDown\":" ++ b01 (btn g.wButtons 0x0002) ++ ", " ++
  "\"DpadLeft\":" ++ b01 (btn g.wButtons 0x0004) ++ ", " ++
  "\"DpadRight\":" ++ b01 (btn g.wButtons 0x0008) ++ "\x7d,\n" ++
  "  \"triggers\": \x7b\"LT\": " ++ fixed6 (normTrig g.bLeftTrigger) ++
  ", \"RT\": " ++ fixed6 (normTrig g.bRightTrigger) ++ "\x7d,\n" ++
  "  \"sticks\": \x7b\"LX\": " ++ fixed6 (normThumb g.sThumbLX) ++
  ", \"LY\": " ++ fixed6 (normThumb g.sThumbLY) ++
  ", \"RX\": " ++ fixed6 (normThumb g.sThumbRX) ++
  ", \"RY\": " ++ fixed6 (normThumb g.sThumbRY) ++ "\x7d\n" ++
  "\x7d\n"

/-- The bytes `PipeThread` delivers for one snapshot in xbox_reader.cpp
(lines 369-373): the `BuildJson` string followed by the single `'\n'`
delimiter; no other framing. -/
def xrPipeMessage (s : State) : String := BuildJson s ++ "\n"

/-- The bytes `PipeThread` delivers for one snapshot in
XboxControllerInput.cpp (lines 185-189): the `FormatState` JSON followed
by the `'\n'` delimiter; no other framing. -/
def xciPipeMessage (g : Gamepad) (connected : Bool) : String :=
  xciJson g connected ++ "\n"

/-- Publish step of the acquisition loop: every iteration of
`while (g_running.load())` in `main` (xbox_reader.cpp lines 413-434)
builds the tick's snapshot and publishes it into the cell,
unconditionally — there is no change detection. -/
def xrPublishTick (c : Cell String) (res : Option Gamepad) : Cell String :=
  c.publish (xrPipeMessage (xrTick res))

/-- Parsed JSON values, for the wire-format round-trip property. -/
inductive JVal
  | jbool (b : Bool)
  | jnum (q : ℚ)
  | jobj (fields : List (String × JVal))

/-- The opening brace character. -/
def lbrace : Char := Char.ofNat 123

/-- The closing brace character. -/
def rbrace : Char := Char.ofNat 125

/-- Skip JSON whitespace. -/
def skipWs : List Char → List Char
  | [] => []
  | c :: rest =>
      if c = ' ' || c = '\n' || c = '\r' || c = '\t' then skipWs rest
      else c :: rest

/-- Read the characters of a JSON string up to the closing quote. -/
def readKey : List Char → Option (List Char × List Char)
  | [] => none
  | c :: rest =>
      if c = '"' then some ([], rest)
      else
        match readKey rest with
        | some (k, r) => some (c :: k, r)
        | none => none

/-- Numeric value of a digit string. -/
def digitsVal (ds : List Char) : ℕ :=
  ds.foldl (fun a c => 10 * a + (c.toNat - 48)) 0

/-- Parse a JSON number: optional minus, digits, optional point and
fractional digits. -/
def parseNum (l : List Char) : Option (ℚ × List Char) :=
  let neg : Bool := match l with
    | '-' :: _ => true
    | _ => false
  let l1 : List Char := match l with
    | '-' :: r => r
    | _ => l
  let ds := l1.takeWhile (fun c => c.isDigit)
  let l2 := l1.dropWhile (fun c => c.isDigit)
  if ds.isEmpty then none
  else
    match l2 with
    | '.' :: r =>
        let fs := r.takeWhile (fun c => c.isDigit)
        let r2 := r.dropWhile (fun c => c.isDigit)
        if fs.isEmpty then none
        else
          let n : ℤ := (digitsVal ds : ℤ) * 10 ^ fs.length + (digitsVal fs : ℤ)
          some (mkRat (if neg then -n else n) (10 ^ fs.length), r2)
    | _ =>
        let n : ℤ := (digitsVal ds : ℤ)
        some (mkRat (if neg then -n else n) 1, l2)

mutual

/-- Parse one JSON value (fuel-indexed recursive descent). -/
def parseVal : ℕ → List Char → Option (JVal × List Char)
  | 0, _ => none
  | fuel + 1, l =>
      match skipWs l with
      | 't' :: 'r' :: 'u' :: 'e' :: r => some (.jbool true, r)
      | 'f' :: 'a' :: 'l' :: 's' :: 'e' :: r => some (.jbool false, r)
      | c :: r =>
          if c = lbrace then
            match skipWs r with
            | c2 :: r2 =>
                if c2 = rbrace then some (.jobj [], r2)
                else
                  match parseFields fuel (c2 :: r2) with
                  | some (fs, r3) => some (.jobj fs, r3)
                  | none => none
            | [] => none
          else
            match parseNum (c :: r) with
            | some (q, r1) => some (.jnum q, r1)
            | none => none
      | [] => none

/-- Parse the fields of a JSON object after its opening brace. -/
def parseFields : ℕ → List Char → Option (List (String × JVal) × List Char)
  | 0, _ => none
  | fuel + 1, l =>
      match skipWs l with
      | c :: r =>
          if c = '"' then
            match readKey r with
            | some (k, r1) =>
                match skipWs r1 with
                | ':' :: r2 =>
                    match parseVal fuel r2 with
                    | some (v, r3) =>
                        match skipWs r3 with
                        | ',' :: r4 =>
                            match parseFields fuel r4 with
                            | some (fs, r5) => some ((String.mk k, v) :: fs, r5)
                            | none => none
                        | c2 :: r4 =>
                            if c2 = rbrace then some ([(String.mk k, v)], r4)
                            else none
                        | [] => none
                    | none => none
                | _ => none
            | none => none
          else none
      | [] => none

end

/-- The parse tree the spec expects for the all-zero disconnected
snapshot: connected false, every button 0, triggers 0.0/0.0, sticks all
0.0. -/
def zeroSnapshotJ : JVal :=
  .jobj
    [( r"connected", .jbool false),
     ( r"buttons", .jobj
        [( r"A", .jnum 0), ( r"B", .jnum 0), ( r"X", .jnum 0), ( r"Y", .jnum 0),
         ( r"LB", .jnum 0), ( r"RB", .jnum 0), ( r"Back", .jnum 0), ( r"Start", .jnum 0),
         ( r"LS", .jnum 0), ( r"RS", .jnum 0), ( r"DpadUp", .jnum 0), ( r"DpadDown", .jnum 0),
         ( r"DpadLeft", .jnum 0), ( r"DpadRight", .jnum 0)]),
     ( r"triggers", .jobj [( r"LT", .jnum 0), ( r"RT", .jnum 0)]),
     ( r"sticks", .jobj
        [( r"LX", .jnum 0), ( r"LY", .jnum 0), ( r"RX", .jnum 0), ( r"RY", .jnum 0)])]

/-- A snapshot string, for concrete instantiations. -/
def snapA : String := "snapA"

/-- Another snapshot string, for concrete instantiations. -/
def snapB : String := "snapB"

/-- C8: for every raw trigger byte v in [0,255], normalization yields
exactly v/255, which lies in the closed interval [0,1], and the mapping
is monotonic in v. -/
theorem normTrig_spec (v w : ℕ) (hv : v ≤ 255) (hvw : v ≤ w) :
    normTrig v = (v : ℚ) / 255 ∧
    0 ≤ normTrig v ∧ normTrig v ≤ 1 ∧
    normTrig v ≤ normTrig w := by
  have hval : ∀ u : ℕ, normTrig u = (u : ℚ) / 255 := by
    intro u
    rw [normTrig, Rat.mkRat_eq_div]
    norm_num
  refine ⟨hval v, ?_, ?_, ?_⟩
  · rw [hval v]; positivity
  · rw [hval v, div_le_one (by norm_num)]
    exact_mod_cast hv
  · rw [hval v, hval w]
    have hvw' : (v : ℚ) ≤ (w : ℚ) := by exact_mod_cast hvw
    gcongr

/-- Witness for the trigger normalization theorem, at v = 128, w = 255. -/
theorem normTrig_spec_w :
    normTrig 128 = (128 : ℚ) / 255 ∧
    0 ≤ normTrig 128 ∧ normTrig 128 ≤ 1 ∧
    normTrig 128 ≤ normTrig 255 :=
  normTrig_spec 128 255 (by norm_num) (by norm_num)

/-- C9: stick normalization divides non-negative raw values by 32767 and
negative ones by 32768, maps 32767 to exactly 1, -32768 to exactly -1
and 0 to 0, and every output over the raw range lies in [-1, 1]. -/
theorem normThumb_spec (v : ℤ) (hlo : -32768 ≤ v) (hhi : v ≤ 32767) :
    (0 ≤ v → normThumb v = (v : ℚ) / 32767) ∧
    (v < 0 → normThumb v = (v : ℚ) / 32768) ∧
    normThumb 32767 = 1 ∧ normThumb (-32768) = -1 ∧ normThumb 0 = 0 ∧
    -1 ≤ normThumb v ∧ normThumb v ≤ 1 := by
  have hpos : ∀ u : ℤ, 0 ≤ u → normThumb u = (u : ℚ) / 32767 := by
    intro u hu
    rw [normThumb, if_pos hu, Rat.mkRat_eq_div]
    norm_num
  have hneg : ∀ u : ℤ, u < 0 → normThumb u = (u : ℚ) / 32768 := by
    intro u hu
    rw [normThumb, if_neg (by omega), Rat.mkRat_eq_div]
    norm_num
  refine ⟨hpos v, hneg v, by decide, by decide, by decide, ?_, ?_⟩
  · rcases le_or_lt 0 v with h | h
    · rw [hpos v h]
      have : (0 : ℚ) ≤ (v : ℚ) / 32767 := by positivity
      linarith
    · rw [hneg v h, le_div_iff₀ (by norm_num : (0:ℚ) < 32768)]
      have : (-32768 : ℚ) ≤ (v : ℚ) := by exact_mod_cast hlo
      linarith
  · rcases le_or_lt 0 v with h | h
    · rw [hpos v h, div_le_one (by norm_num)]
      exact_mod_cast hhi
    · rw [hneg v h]
      have h1 : (v : ℚ) < 0 := by exact_mod_cast h
      have : (v : ℚ) / 32768 ≤ 0 := by
        apply div_nonpos_of_nonpos_of_nonneg <;> [linarith; norm_num]
      linarith

/-- Witness for the stick normalization theorem, at v = -5. -/
theorem normThumb_spec_w :
    -1 ≤ normThumb (-5) ∧ normThumb (-5) ≤ 1 :=
  ⟨(normThumb_spec (-5) (by norm_num) (by norm_num)).2.2.2.2.2.1,
   (normThumb_spec (-5) (by norm_num) (by norm_num)).2.2.2.2.2.2⟩

/-- C1: the cell's sequence counter increments on every publish —
unconditionally once per acquisition tick, and also when the published
value equals the held one — and publish-then-readLatest is
read-your-write: the read returns exactly the published value with a
sequence number at least as large as the one the publish assigned. -/
theorem cell_publish_readLatest (c : Cell String) (res : Option Gamepad) (v : String) :
    (xrPublishTick c res).seq = c.seq + 1 ∧
    (v = c.value → (c.publish v).seq = c.seq + 1) ∧
    (c.publish v).readLatest.1 = v ∧
    c.seq + 1 ≤ (c.publish v).readLatest.2 :=
  ⟨rfl, fun _ => rfl, rfl, le_refl _⟩

/-- Witness for the cell theorem: publishing a value equal to the held
one still increments seq (from 5 to 6). -/
theorem cell_publish_readLatest_w :
    ((Cell.mk snapA 5).publish snapA).seq = 6 :=
  (cell_publish_readLatest ⟨snapA, 5⟩ none snapA).2.1 rfl

/-- C10: on a not-connected poll, `XInputController::poll` writes only
the connected field and leaves every button, trigger and stick field of
the caller's State unchanged; its return value always equals the
connected field it just wrote; and the acquisition loop's tick state is
`poll` applied to the freshly value-initialized `State{}`. -/
theorem poll_frame_spec (prev : State) (res : Option Gamepad) :
    (XInputController.poll prev none).1.connected = false ∧
    (XInputController.poll prev none).1.buttons = prev.buttons ∧
    (XInputController.poll prev none).1.triggers = prev.triggers ∧
    (XInputController.poll prev none).1.sticks = prev.sticks ∧
    (XInputController.poll prev none).2 = false ∧
    (XInputController.poll prev res).2 = (XInputController.poll prev res).1.connected ∧
    xrTick res = (XInputController.poll State.init res).1 := by
  refine ⟨rfl, rfl, rfl, rfl, rfl, ?_, rfl⟩
  cases res <;> rfl

/-- C6: a tick whose poll reports not-connected produces and publishes
the all-zero disconnected State in xbox_reader.cpp, and the zeroed
gamepad with connected=false in XboxControllerInput.cpp; and every
published State with connected=false is the all-zero State. -/
theorem disconnected_zero_state (res : Option Gamepad) :
    xrTick none = State.init ∧
    ((xrTick res).connected = false → xrTick res = State.init) ∧
    xciTickPad none = Gamepad.zero ∧
    xciTickConnected none = false := by
  refine ⟨rfl, ?_, rfl, rfl⟩
  cases res with
  | none => intro _; rfl
  | some pad => intro h; simp [xrTick, XInputController.poll] at h

/-- Witness for the disconnected-zero theorem at the not-connected poll
result. -/
theorem disconnected_zero_state_w : xrTick none = State.init :=
  (disconnected_zero_state none).2.1 rfl

/-- C2 counterexample: a spurious wakeup with the sequence number
unchanged (cell seq = lastSeen = 7) while running: the waiter of
`PipeThread` does not re-check for new data — it acts on the unchanged
value and writes it to the pipe. -/
theorem pipeWait_spurious_counterexample :
    (Cell.mk snapB 7).seq ≤ 7 ∧
    pipeWaitIter true 7 ⟨snapB, 7⟩ = some snapB :=
  ⟨le_refl 7, rfl⟩

/-- C2 amended: after a wake the waiter re-checks only the shutdown
flag: with running false it stops without acting; on any wake with
running still true — including a spurious one with the sequence number
unchanged — it writes the current latest value without checking that a
newer publish occurred. -/
theorem pipeWait_amended (ls : ℕ) (c : Cell String) :
    pipeWaitIter false ls c = none ∧ pipeWaitIter true ls c = some c.value :=
  ⟨rfl, rfl⟩

/-- C3 counterexample: in XboxControllerInput.cpp, with the pipe thread
hung in a blocking ConnectNamedPipe or WriteFile (so it never exits:
`none`), the untimed `pipeThr.join()` in `main` never returns — the
process does not terminate within the 1-second grace period, or at all. -/
theorem shutdown_unbounded_counterexample :
    ¬ ∃ t, xciExitTimeMs none = some t ∧ t ≤ 1000 := by
  simp [xciExitTimeMs]

/-- C3 amended: xbox_reader.cpp satisfies the claim — the detached
forced-exit timer ends the process 500 ms after the shutdown request,
regardless of any component's state, inside the 1 s grace period;
XboxControllerInput.cpp instead joins the pipe thread without a timeout,
so its process exit waits exactly as long as the pipe thread runs,
unboundedly. -/
theorem shutdown_amended (g : Option ℕ) (t : ℕ) :
    xrExitTimeMs g ≤ 500 ∧ xrExitTimeMs g ≤ 1000 ∧
    xciExitTimeMs (some t) = some t := by
  refine ⟨?_, ?_, rfl⟩ <;> cases g <;> simp [xrExitTimeMs]

/-- C4 counterexample: the shutdown signal fires while the pipe thread is
blocked in ConnectNamedPipe (Listening). No code closes the listening
handle, so the thread stays blocked in Listening: the component does not
observe the signal and does not exit. -/
theorem listening_shutdown_counterexample :
    (pipeStep ⟨.listening, true, ⟨snapB, 3⟩⟩ .shutdown).1.phase = PipePhase.listening ∧
    (pipeStep ⟨.listening, true, ⟨snapB, 3⟩⟩ .shutdown).1.phase ≠ PipePhase.finished :=
  ⟨rfl, by decide⟩

/-- C4 amended: the blocking accept is not interruptible — shutdown only
flips the running flag while the thread stays in Listening — but no
consumer is ever served after shutdown begins: every step taken with the
running flag false delivers nothing, a client accepted after shutdown is
closed without output, and the thread then exits at the next loop
check. -/
theorem listening_shutdown_amended (c : Cell String) (ph : PipePhase) (e : PipeEvent) :
    (pipeStep ⟨.listening, true, c⟩ .shutdown).1 = ⟨.listening, false, c⟩ ∧
    (pipeStep ⟨.listening, false, c⟩ .acceptClient).1 = ⟨.idle, false, c⟩ ∧
    (pipeStep ⟨.listening, false, c⟩ .acceptClient).2 = none ∧
    (pipeStep ⟨.idle, false, c⟩ (.loopTurn true)).1 = ⟨.finished, false, c⟩ ∧
    (pipeStep ⟨ph, false, c⟩ e).2 = none := by
  refine ⟨rfl, rfl, rfl, rfl, ?_⟩
  cases e <;> cases ph <;> simp [pipeStep]

/-- C7: a write failure while connected closes the session and moves back
to Idle with the running flag still true; the endpoint is then re-created
and a new client accepted; accepting delivers nothing by itself (the
streaming loop waits before reading); a publish that wakes the writer
delivers exactly the just-published value; and any delivered output
equals the cell's current latest value — never older data. -/
theorem reconnect_fresh (c : Cell String) (v out : String) (s : PipeCfg) (e : PipeEvent) :
    (pipeStep ⟨.connected, true, c⟩ (.publish v false)).1.phase = .idle ∧
    (pipeStep ⟨.connected, true, c⟩ (.publish v false)).1.running = true ∧
    (pipeStep ⟨.idle, true, c⟩ (.loopTurn true)).1.phase = .listening ∧
    (pipeStep ⟨.listening, true, c⟩ .acceptClient).1 = ⟨.connected, true, c⟩ ∧
    (pipeStep ⟨.listening, true, c⟩ .acceptClient).2 = none ∧
    (pipeStep ⟨.connected, true, c⟩ (.publish v true)).2 = some v ∧
    ((pipeStep s e).2 = some out → out = (pipeStep s e).1.cell.value) := by
  refine ⟨rfl, rfl, rfl, rfl, rfl, rfl, ?_⟩
  rcases s with ⟨ph, r, cc⟩
  rcases e with ⟨ok⟩ | _ | _ | ⟨w, wOk⟩ | ⟨wOk⟩ | _ <;>
    cases ph <;> cases r <;>
    (try cases ok) <;> (try cases wOk) <;>
    simp [pipeStep, Cell.publish, eq_comm]

/-- Witness for the reconnect theorem: the output of a successful
publish-and-write step equals the cell's latest value. -/
theorem reconnect_fresh_w :
    snapB = (pipeStep ⟨.connected, true, ⟨snapA, 0⟩⟩ (.publish snapB true)).1.cell.value :=
  (reconnect_fresh ⟨snapA, 0⟩ snapB snapB ⟨.connected, true, ⟨snapA, 0⟩⟩
      (.publish snapB true)).2.2.2.2.2.2 rfl

/-- C5: each wire message is the serialized JSON text followed by the
single newline delimiter (no other framing), buttons are encoded as 0/1,
the numeric fields carry the fixed six-decimal rendering, and the
message for the all-zero disconnected snapshot parses back to
connected=false, all buttons 0, triggers 0.0/0.0 and sticks all 0.0 —
in both variants. -/
theorem wire_message_roundtrip (s : State) (g : Gamepad) (b : Bool) :
    xrPipeMessage s = BuildJson s ++ "\n" ∧
    xciPipeMessage g b = xciJson g b ++ "\n" ∧
    (b01 b = "0" ∨ b01 b = "1") ∧
    fixed6 0 = "0.000000" ∧
    parseVal 64 (xrPipeMessage State.init).data = some (zeroSnapshotJ, ['\n']) ∧
    parseVal 64 (xciPipeMessage Gamepad.zero false).data = some (zeroSnapshotJ, ['\n', '\n']) := by
  refine ⟨rfl, rfl, ?_, rfl, rfl, rfl⟩
  cases b
  · exact Or.inl rfl
  · exact Or.inr rfl

end XboxMC
